import Mathlib

/-!
Verification development for the ovsdb result-materialization layer
(system.go: getSystemID, parseSystemInfo, populateVersionFromAppctl,
GetChassis, MapPortToChassis).  Query results, rows and cells are
shallowly embedded; the external collaborators (the query transport,
the identity file, the control socket, the OS metadata file) are
modelled as explicit inputs recording the outcome the collaborator
would deliver.
-/

set_option autoImplicit false

namespace Ovsdb

/-- Modelled from the spec: a decoded result cell is a tagged union over
string, ordered sequence of string, mapping of string to string, 64-bit
integer, a pre-normalized float tagged "integer" (the source comments
that GetColumnValue returns tag "integer" for float64 values after
converting to int64, so its payload is a 64-bit integer), raw float and
platform integer.  A float payload is modelled by the integer it holds:
every float cell the verified code converts comes from an integer
counter column, so the embedded value is the binary64 rounding of an
integer, itself an integer. -/
inductive Value where
  | vString (s : String)
  | vStringList (l : List String)
  | vStringMap (m : List (String × String))
  | vInt64 (n : Int)
  | vInteger (n : Int)
  | vFloat64 (f : Int)
  | vInt (n : Int)
  deriving DecidableEq, Repr

/-- The Go type-name tag GetColumnValue reports alongside a value; the
tag strings are the ones the source compares against ("string",
"[]string", "map[string]string", "int64", "integer", "float64", "int"). -/
def Value.tag : Value → String
  | .vString _ => "string"
  | .vStringList _ => "[]string"
  | .vStringMap _ => "map[string]string"
  | .vInt64 _ => "int64"
  | .vInteger _ => "integer"
  | .vFloat64 _ => "float64"
  | .vInt _ => "int"

/-- A cell as delivered by the decoder: either a decoding error or a
tagged value. -/
abbrev Cell := Except String Value

/-- A row is modelled as an association list from column name to cell;
the column schema the Go code threads through `result.Columns` is folded
into the row itself. -/
abbrev Row := List (String × Cell)

/-- Modelled from the spec: `Row.GetColumnValue(columnName, columns)`
(declared outside the verified file) returns (value, typeTag) for the
named column, an error for an absent column (`ColumnNotFound`) and the
decode error of a failed cell; the tag is authoritative for the payload. -/
def getColumnValue (row : Row) (col : String) : Except String (Value × String) :=
  match row.lookup col with
  | none => .error ("column " ++ col ++ " not found")
  | some (.error e) => .error e
  | some (.ok v) => .ok (v, v.tag)

deriving instance DecidableEq for Except

/-- A query result: the ordered row set returned by Transact. -/
structure Result where
  rows : List Row
  deriving DecidableEq, Repr

/-! ### Go map model

`external_ids` maps and the transient nb_cfg indexes are Go
`map[string]T` values; they are embedded as association lists whose
lookup is `List.lookup`, with `goMapSet` as insertion (replacing every
binding of the key, appending when absent), matching Go assignment. -/

/-- Go map assignment `m[k] = v`: replace the binding if the key is
present, append it otherwise.  (An association list models the Go map
only through `List.lookup`; the decoded maps never carry duplicate
keys, so replacing the first binding realizes the Go semantics.) -/
def goMapSet {α : Type} : List (String × α) → String → α → List (String × α)
  | [], k, v => [(k, v)]
  | p :: ps, k, v => if p.1 = k then (k, v) :: ps else p :: goMapSet ps k v

/-- The string-to-string map carried by `external_ids` columns. -/
abbrev SIMap := List (String × String)

/-! ### getSystemID -/

/-- Outcome of the identity-file read in getSystemID: opening may fail;
otherwise the scanner yields an optional first line, and the first
`Scan` call may instead fail with a read error (in which case no line
was produced). -/
inductive FileRead where
  | openErr (e : String)
  | content (firstLine : Option String) (readErr : Option String)
  deriving DecidableEq, Repr

/-- The inputs getSystemID consumes: whether a query client was
supplied, the database name, the outcome of the `SELECT external_ids`
transaction were it issued, and the outcome of reading the identity
file. -/
structure SystemIDEnv where
  hasClient : Bool
  dbName : String
  transact : Except String Result
  file : FileRead
  deriving DecidableEq, Repr

/-- The final length guard of getSystemID (lines 74-76 and 110-112 of
system.go): identities longer than 253 bytes are returned together with
an error. -/
def lengthChecked (systemID : String) : String × Option String :=
  if systemID.utf8ByteSize > 253 then
    (systemID, some ("system-id is greater than what the exporter currently allows: "
      ++ toString systemID.utf8ByteSize ++ " vs 253"))
  else
    (systemID, none)

/-- The file-fallback tail of getSystemID; `dbErr` is the transaction
error recorded earlier (`dbErr` in the source), combined into the error
message when the file also fails. -/
def fileFallback (dbErr : Option String) (file : FileRead) : String × Option String :=
  match file with
  | .openErr e =>
    match dbErr with
    | some de =>
      ("", some ("failed to get system-id from database (" ++ de ++ ") and file (" ++ e ++ ")"))
    | none => ("", some e)
  | .content firstLine readErr =>
    match readErr with
    | some e =>
      match dbErr with
      | some de =>
        ("", some ("failed to get system-id from database (" ++ de ++ ") and file (" ++ e ++ ")"))
      | none => ("", some e)
    | none => lengthChecked (firstLine.getD "")

/-- getSystemID (system.go lines 59-114): try the database when a
client and database name are supplied; a transaction error is recorded
as `dbErr`; a usable non-empty `system-id` entry in the first row's
`external_ids` map is length-checked and returned; every other outcome
falls back to the identity file. -/
def getSystemID (env : SystemIDEnv) : String × Option String :=
  if env.hasClient ∧ env.dbName ≠ "" then
    match env.transact with
    | .ok result =>
      match result.rows with
      | [] => fileFallback none env.file
      | row :: _ =>
        match getColumnValue row "external_ids" with
        | .ok (.vStringMap externalIDs, _) =>
          match externalIDs.lookup "system-id" with
          | some dbSystemID =>
            if dbSystemID ≠ "" then lengthChecked dbSystemID
            else fileFallback none env.file
          | none => fileFallback none env.file
        | _ => fileFallback none env.file
    | .error e => fileFallback (some e) env.file
  else
    fileFallback none env.file

/-! ### parseSystemInfo -/

/-- The four metadata columns parseSystemInfo copies out of the first
row (system.go line 221). -/
def systemInfoColumns : List String := ["ovs_version", "db_version", "system_type", "system_version"]

/-- One iteration of the metadata-column loop (system.go lines 222-240):
a failed cell or an unexpected tag aborts with the systemInfo built so
far plus the error; a string is stored directly, a string sequence
stores its first element or the empty string. -/
def parseCol (row : Row) (info : SIMap) (col : String) : Except (SIMap × String) SIMap :=
  match getColumnValue row col with
  | .error e => .error (info, "parsing '" ++ col ++ "' failed: " ++ e)
  | .ok (v, dt) =>
    match v with
    | .vString s => .ok (goMapSet info col s)
    | .vStringList arr => .ok (goMapSet info col (arr.headD ""))
    | _ =>
      .error (info, "data type '" ++ dt ++ "' for '" ++ col ++ "' column is unexpected in this context")

/-- The metadata-column loop of parseSystemInfo. -/
def parseCols (row : Row) (info : SIMap) : List String → Except (SIMap × String) SIMap
  | [] => .ok info
  | c :: cs =>
    match parseCol row info c with
    | .error e => .error e
    | .ok info' => parseCols row info' cs

/-- The body of the (single-iteration) row loop of parseSystemInfo
(system.go lines 211-241): decode the external_ids map of the row, then
overlay the four metadata columns. -/
def parseFirstRow (row : Row) : Except (SIMap × String) SIMap :=
  match getColumnValue row "external_ids" with
  | .error e => .error ([], "parsing 'external_ids' failed: " ++ e)
  | .ok (v, dt) =>
    match v with
    | .vStringMap m => parseCols row m systemInfoColumns
    | _ =>
      .error ([], "data type '" ++ dt ++ "' for 'external_ids' column is unexpected in this context")

/-- The required-key loop of parseSystemInfo (system.go lines 255-260);
the source requires only "hostname". -/
def checkRequired (info : SIMap) : List String → Option String
  | [] => none
  | k :: ks =>
    match info.lookup k with
    | some _ => checkRequired info ks
    | none => some ("no mandatory '" ++ k ++ "' found")

/-- parseSystemInfo (system.go lines 209-262): only the first row is
decoded (the loop breaks after one iteration); afterwards the resolved
`system-id` must exist and agree with the supplied one, a default
`rundir` is inserted when absent, and `hostname` is mandatory. -/
def parseSystemInfo (systemID : String) (result : Result) : SIMap × Option String :=
  let infoRes :=
    match result.rows with
    | [] => Except.ok ([] : SIMap)
    | row :: _ => parseFirstRow row
  match infoRes with
  | .error (info, e) => (info, some e)
  | .ok info =>
    match info.lookup "system-id" with
    | some dbSystemID =>
      if dbSystemID ≠ systemID then
        (info, some ("found 'system-id' mismatch " ++ dbSystemID ++ " (db) vs. "
          ++ systemID ++ " (config)"))
      else
        let info' :=
          match info.lookup "rundir" with
          | some _ => info
          | none => goMapSet info "rundir" "/var/run/openvswitch"
        match checkRequired info' ["hostname"] with
        | some e => (info', some e)
        | none => (info', none)
    | none => (info, some "no 'system-id' found")

/-! ### parseOvsVersion and populateVersionFromAppctl -/

/-- The character class `\s` of the version regexp (RE2: tab, newline,
form feed, carriage return, space). -/
def isReSpace (c : Char) : Bool :=
  c = ' ' ∨ c = '\t' ∨ c = '\n' ∨ c = '\x0c' ∨ c = '\r'

/-- The character class `[\d.]` of the version regexp. -/
def isVersionChar (c : Char) : Bool :=
  c.isDigit ∨ c = '.'

/-- Whitespace trimmed by strings.TrimSpace for the inputs that occur
here (ASCII whitespace). -/
def isTrimSpace (c : Char) : Bool :=
  c = ' ' ∨ c = '\t' ∨ c = '\n' ∨ c = '\x0b' ∨ c = '\x0c' ∨ c = '\r'

/-- strings.TrimSpace restricted to ASCII whitespace. -/
def goTrimSpace (s : String) : String :=
  String.mk (((s.toList.dropWhile isTrimSpace).reverse.dropWhile isTrimSpace).reverse)

/-- The literal part of the version regexp. -/
def ovsLit : List Char := "(Open vSwitch)".toList

/-- Matching `\s+([\d.]+)` greedily right after the literal: at least
one space character, then the maximal nonempty run of version
characters (the capture group). -/
def versionAfterLit (cs : List Char) : Option (List Char) :=
  let sp := cs.takeWhile isReSpace
  let rest := cs.dropWhile isReSpace
  if sp.isEmpty then none
  else
    let ver := rest.takeWhile isVersionChar
    if ver.isEmpty then none else some ver

/-- Leftmost match of `\(Open vSwitch\)\s+([\d.]+)`: scan for an
occurrence of the literal followed by a successful tail match. -/
def findVersion : List Char → Option (List Char)
  | [] => none
  | c :: rest =>
    if ovsLit.isPrefixOf (c :: rest) then
      match versionAfterLit ((c :: rest).drop ovsLit.length) with
      | some v => some v
      | none => findVersion rest
    else
      findVersion rest

/-- parseOvsVersion (system.go lines 134-143): the first capture of the
version regexp when it matches, otherwise the whole trimmed string. -/
def parseOvsVersion (versionStr : String) : String :=
  match findVersion versionStr.toList with
  | some v => String.mk v
  | none => goTrimSpace versionStr

/-- The schema object of the external GetSchema collaborator; only its
version string is consumed. -/
structure Schema where
  Version : String
  deriving DecidableEq, Repr

/-- The external outcomes populateVersionFromAppctl consumes: the
control-socket version probe (getVersionViaAppctl), the schema pointer,
and the ID/VERSION_ID pair read from the OS metadata file
(getSystemInfoFromOS, empty strings when unavailable). -/
structure VersionEnv where
  appctl : Except String String
  schema : Option Schema
  osRelease : String × String
  deriving DecidableEq, Repr

/-- The `!exists || val == ""` test the source applies to each metadata
key. -/
def missingKey (info : SIMap) (k : String) : Bool :=
  match info.lookup k with
  | some v => v = ""
  | none => true

/-- populateVersionFromAppctl (system.go lines 166-207): fill
ovs_version from the control socket, db_version from the schema, and
system_type/system_version from the OS metadata file, each only when
missing or empty in the decoded row — except that a missing or empty
system_type causes both system_type and system_version to be written
from the OS metadata file.  Every unresolved field becomes "unknown". -/
def populateVersionFromAppctl (info : SIMap) (env : VersionEnv) : SIMap :=
  let info :=
    if missingKey info "ovs_version" then
      match env.appctl with
      | .ok versionStr => goMapSet info "ovs_version" (parseOvsVersion versionStr)
      | .error _ => goMapSet info "ovs_version" "unknown"
    else info
  let info :=
    if missingKey info "db_version" then
      match env.schema with
      | some schema =>
        if schema.Version ≠ "" then goMapSet info "db_version" schema.Version
        else goMapSet info "db_version" "unknown"
      | none => goMapSet info "db_version" "unknown"
    else info
  if missingKey info "system_type" then
    let systemType := env.osRelease.1
    let systemVersion := env.osRelease.2
    let info :=
      if systemType ≠ "" then goMapSet info "system_type" systemType
      else goMapSet info "system_type" "unknown"
    if systemVersion ≠ "" then goMapSet info "system_version" systemVersion
    else goMapSet info "system_version" "unknown"
  else if missingKey info "system_version" then
    let systemVersion := env.osRelease.2
    if systemVersion ≠ "" then goMapSet info "system_version" systemVersion
    else goMapSet info "system_version" "unknown"
  else info

/-! ### Numeric cell normalization (GetChassis, system.go lines 471-498)

A Go float64 stores 53 significand bits; converting an int64 to float64
rounds to the nearest representable value (ties to even), and
converting an integral float64 back with int64(...) recovers the
integer it stores.  Both conversions are embedded as exact integer
functions. -/

/-- Fuel-driven base-2 logarithm (fuel at least the argument suffices):
log2Aux fuel n is the position of the leading bit of n. -/
def log2Aux : Nat → Nat → Nat
  | 0, _ => 0
  | fuel + 1, n => if n < 2 then 0 else log2Aux fuel (n / 2) + 1

/-- Base-2 logarithm of a natural number. -/
def natLog2 (n : Nat) : Nat := log2Aux n n

/-- Round a natural number to 53 significand bits (round to nearest,
ties to even): numbers up to 2^53 are exact; a larger number in the
binade [2^e, 2^(e+1)) is rounded to the nearest multiple of 2^(e-52). -/
def roundNat53 (a : Nat) : Nat :=
  if a ≤ 2 ^ 53 then a
  else
    let e := natLog2 a
    let step := 2 ^ (e - 52)
    let q := a / step
    let r := a % step
    if 2 * r < step then q * step
    else if 2 * r > step then (q + 1) * step
    else if q % 2 = 0 then q * step else (q + 1) * step

/-- The Go conversion float64(v) of a 64-bit integer v, as the exact
integer value of the resulting float. -/
def int64ToFloat64 (v : Int) : Int :=
  if 0 ≤ v then (roundNat53 v.toNat : Int) else -(roundNat53 (-v).toNat : Int)

/-- The Go conversion int64(f) of an integral float64 f: the integer
itself when it fits in int64 (out-of-range conversions produce the
amd64 sentinel -2^63). -/
def goFloat64ToInt64 (f : Int) : Int :=
  if -(2 ^ 63) ≤ f ∧ f ≤ 2 ^ 63 - 1 then f else -(2 ^ 63)

/-- The numeric tag switch of GetChassis (system.go lines 472-482 and
487-497): tags "int64" and "integer" carry an int64 payload used
directly, tag "float64" is converted with int64(...), tag "int" with
int64(...) (the identity on 64-bit platforms); any other tag leaves the
zero value. -/
def numFromCell (v : Value) : Int :=
  match v with
  | .vInt64 n => n
  | .vInteger n => n
  | .vFloat64 f => goFloat64ToInt64 f
  | .vInt n => n
  | _ => 0

/-! ### GetChassis (ovn.go part of the source, lines 343-530) -/

/-- The encapsulation reference embedded in a chassis. -/
structure OvnEncaps where
  UUID : String
  Proto : String
  deriving DecidableEq, Repr

/-- OvnChassis: the chassis object GetChassis builds.  net.IP is
modelled as an optional parse result, the zero value (Go nil) being
none. -/
structure OvnChassis where
  UUID : String
  Name : String
  IPAddress : Option String
  Encaps : OvnEncaps
  NbCfg : Int
  NbCfgTimestamp : Int
  Ports : List String
  Switches : List String
  deriving DecidableEq, Repr

/-- The repeated access pattern of GetChassis: read a column, skip the
row on a cell error or on any tag other than "string" (tag "string"
carries exactly the string payload). -/
def getStringCol (row : Row) (col : String) : Option String :=
  match getColumnValue row col with
  | .ok (.vString s, _) => some s
  | _ => none

/-- Phase-1 row decoding (system.go lines 354-383): _uuid, name and
encaps must all decode as strings or the row is skipped; the remaining
chassis fields start at their zero values. -/
def decodeChassisRow (row : Row) : Option OvnChassis := do
  let uuid ← getStringCol row "_uuid"
  let name ← getStringCol row "name"
  let encapsUUID ← getStringCol row "encaps"
  pure
    { UUID := uuid, Name := name, IPAddress := none,
      Encaps := { UUID := encapsUUID, Proto := "" },
      NbCfg := 0, NbCfgTimestamp := 0, Ports := [], Switches := [] }

/-- A decoded Encap row (system.go lines 394-430). -/
structure EncapRow where
  encapUUID : String
  encapProto : String
  chassisName : String
  ip : String
  deriving DecidableEq, Repr

/-- Phase-2 row decoding: _uuid, type, chassis_name and ip must all
decode as strings or the row is skipped. -/
def decodeEncapRow (row : Row) : Option EncapRow := do
  let encapUUID ← getStringCol row "_uuid"
  let encapProto ← getStringCol row "type"
  let chassisName ← getStringCol row "chassis_name"
  let ip ← getStringCol row "ip"
  pure ⟨encapUUID, encapProto, chassisName, ip⟩

/-- Update the first element satisfying p (the chassis loop of phase 2
breaks after the first match). -/
def updateFirst {α : Type} (p : α → Bool) (f : α → α) : List α → List α
  | [] => []
  | a :: as => if p a then f a :: as else a :: updateFirst p f as

/-- The compound join key of phase 2 (system.go lines 431-441): the
endpoint identifier must equal the chassis's embedded encapsulation
reference and the chassis name must equal the endpoint's chassis
name. -/
def encapMatches (er : EncapRow) (c : OvnChassis) : Bool :=
  c.Encaps.UUID == er.encapUUID && c.Name == er.chassisName

/-- The phase-2 mutation applied to the matched chassis: set the IP
address (via the external net.ParseIP, whose nil result is none) and
the encapsulation protocol. -/
def encapUpd (parseIP : String → Option String) (er : EncapRow) (c : OvnChassis) : OvnChassis :=
  { c with IPAddress := parseIP er.ip, Encaps := { c.Encaps with Proto := er.encapProto } }

/-- The phase-2 per-row step: decode the Encap row (skipping it when
malformed) and update the first matching chassis. -/
def applyEncapRow (parseIP : String → Option String) (cs : List OvnChassis) (row : Row) :
    List OvnChassis :=
  match decodeEncapRow row with
  | none => cs
  | some er => updateFirst (encapMatches er) (encapUpd parseIP er) cs

/-- Whether an Encap row joins with the given chassis: a row that fails
to decode joins with nothing. -/
def rowMatchesChassis (row : Row) (c : OvnChassis) : Bool :=
  match decodeEncapRow row with
  | some er => encapMatches er c
  | none => false

/-- A decoded Chassis_Private row (system.go lines 454-498): the
chassis reference and name default to the empty string when absent or
mistyped; the two counters default to 0 and are numeric-tag
normalized. -/
structure PrivateRow where
  chassisUUID : String
  chassisName : String
  nbCfg : Int
  nbCfgTimestamp : Int
  deriving DecidableEq, Repr

/-- Phase-3 row decoding. -/
def decodePrivateRow (row : Row) : PrivateRow :=
  let chassisUUID :=
    match getColumnValue row "chassis" with
    | .ok (.vString s, _) => s
    | _ => ""
  let chassisName :=
    match getColumnValue row "name" with
    | .ok (.vString s, _) => s
    | _ => ""
  let nbCfg :=
    match getColumnValue row "nb_cfg" with
    | .ok (v, _) => numFromCell v
    | .error _ => 0
  let nbCfgTimestamp :=
    match getColumnValue row "nb_cfg_timestamp" with
    | .ok (v, _) => numFromCell v
    | .error _ => 0
  ⟨chassisUUID, chassisName, nbCfg, nbCfgTimestamp⟩

/-- Phase-3 index construction (system.go lines 451-510): each private
record is stored in the nb_cfg map and the timestamp map under its
chassis identifier (when nonempty) and under its chassis name (when
nonempty). -/
def buildPrivateMaps (rows : List Row) : List (String × Int) × List (String × Int) :=
  rows.foldl
    (fun maps row =>
      let pr := decodePrivateRow row
      let maps :=
        if pr.chassisUUID ≠ "" then
          (goMapSet maps.1 pr.chassisUUID pr.nbCfg, goMapSet maps.2 pr.chassisUUID pr.nbCfgTimestamp)
        else maps
      if pr.chassisName ≠ "" then
        (goMapSet maps.1 pr.chassisName pr.nbCfg, goMapSet maps.2 pr.chassisName pr.nbCfgTimestamp)
      else maps)
    ([], [])

/-- The phase-3 per-chassis resolution (system.go lines 514-527):
identifier lookup first, name lookup second, otherwise the counter
keeps its previous (zero) value — independently for nb_cfg and its
timestamp. -/
def privUpd (cfgMap tsMap : List (String × Int)) (c : OvnChassis) : OvnChassis :=
  let nb :=
    match cfgMap.lookup c.UUID with
    | some v => v
    | none =>
      match cfgMap.lookup c.Name with
      | some v => v
      | none => c.NbCfg
  let ts :=
    match tsMap.lookup c.UUID with
    | some v => v
    | none =>
      match tsMap.lookup c.Name with
      | some v => v
      | none => c.NbCfgTimestamp
  { c with NbCfg := nb, NbCfgTimestamp := ts }

/-- Phase-3 resolution over the whole chassis list. -/
def applyPrivate (cfgMap tsMap : List (String × Int)) (cs : List OvnChassis) :
    List OvnChassis :=
  cs.map (privUpd cfgMap tsMap)

/-- The inputs GetChassis consumes: the outcomes of the three Transact
calls (Chassis, Encap, Chassis_Private), the southbound database name
used in error messages, and the external net.ParseIP. -/
structure ChassisEnv where
  chassisQ : Except String Result
  encapQ : Except String Result
  privateQ : Except String Result
  dbName : String
  parseIP : String → Option String

/-- GetChassis (system.go lines 343-530): phase 1 builds the chassis
set (transport error or zero rows are hard failures, malformed rows are
skipped); phase 2 joins the Encap rows in (transport error or zero rows
are hard failures); phase 3 enriches from Chassis_Private, a failing
query being swallowed by returning the phase-1/2 list. -/
def getChassis (env : ChassisEnv) : Except String (List OvnChassis) :=
  match env.chassisQ with
  | .error e => .error (env.dbName ++ ": 'Chassis' table error: " ++ e)
  | .ok result =>
    match result.rows with
    | [] => .error (env.dbName ++ ": no chassis found")
    | _ :: _ =>
      let chassis := result.rows.filterMap decodeChassisRow
      match env.encapQ with
      | .error e => .error (env.dbName ++ ": 'Encap' table error: " ++ e)
      | .ok result2 =>
        match result2.rows with
        | [] => .error (env.dbName ++ ": no chassis found")
        | _ :: _ =>
          let chassis2 := result2.rows.foldl (applyEncapRow env.parseIP) chassis
          match env.privateQ with
          | .error _ => .ok chassis2
          | .ok result3 =>
            let maps := buildPrivateMaps result3.rows
            .ok (applyPrivate maps.1 maps.2 chassis2)

/-! ### MapPortToChassis (system.go lines 534-552) -/

/-- Modelled from the spec: the externally owned logical switch port
record (LogicalPortRef), with exactly the fields the association step
reads (UUID, ChassisUUID, LogicalSwitchUUID) and writes (Encapsulation,
ChassisIPAddress). -/
structure OvnLogicalSwitchPort where
  UUID : String
  ChassisUUID : String
  LogicalSwitchUUID : String
  Encapsulation : String
  ChassisIPAddress : Option String
  deriving DecidableEq, Repr

/-- The last element satisfying p.  The Go portMap maps each chassis
UUID to the chassis pointer stored last, so a lookup resolves to the
last list element with that UUID. -/
def lastMatch {α : Type} (p : α → Bool) : List α → Option α
  | [] => none
  | a :: as =>
    match lastMatch p as with
    | some b => some b
    | none => if p a then some a else none

/-- Update the last element satisfying p: the model of mutating the
chassis object the Go portMap resolves to. -/
def updateLast {α : Type} (p : α → Bool) (f : α → α) : List α → List α
  | [] => []
  | a :: as => if as.any p then a :: updateLast p f as else if p a then f a :: as else a :: as

/-- The mutation the port loop applies to the chassis the port
resolves to: append the port identifier to the port collection, and,
when the auxiliary switch set did not hold the switch identifier yet,
append the switch identifier to the switch collection. -/
def portUpd (port : OvnLogicalSwitchPort) (addSwitch : Bool) (c : OvnChassis) : OvnChassis :=
  { c with
    Ports := c.Ports ++ [port.UUID],
    Switches := if addSwitch then c.Switches ++ [port.LogicalSwitchUUID] else c.Switches }

/-- One iteration of the port loop: the state carries the chassis list,
the auxiliary per-invocation switch set (switchMap), and the ports
processed so far.  A port whose chassis UUID is not in the lookup is
left unmodified; otherwise the port receives the chassis protocol and
IP address, its UUID is appended to the chassis port collection, and
its switch UUID is appended to the chassis switch collection only when
the auxiliary set does not hold it yet. -/
def portStep (st : List OvnChassis × List String × List OvnLogicalSwitchPort)
    (port : OvnLogicalSwitchPort) :
    List OvnChassis × List String × List OvnLogicalSwitchPort :=
  let vteps := st.1
  let switchSet := st.2.1
  let outPorts := st.2.2
  match lastMatch (fun c => c.UUID == port.ChassisUUID) vteps with
  | none => (vteps, switchSet, outPorts ++ [port])
  | some c =>
    let port' := { port with Encapsulation := c.Encaps.Proto, ChassisIPAddress := c.IPAddress }
    let addSwitch := !(switchSet.contains port.LogicalSwitchUUID)
    let vteps' := updateLast (fun c => c.UUID == port.ChassisUUID) (portUpd port addSwitch) vteps
    let switchSet' := if addSwitch then switchSet ++ [port.LogicalSwitchUUID] else switchSet
    (vteps', switchSet', outPorts ++ [port'])

/-- MapPortToChassis (system.go lines 534-552): fold the port loop over
the supplied ports with an initially empty switch set, returning the
mutated chassis list and the mutated ports. -/
def mapPortToChassis (vteps : List OvnChassis) (ports : List OvnLogicalSwitchPort) :
    List OvnChassis × List OvnLogicalSwitchPort :=
  let st := ports.foldl portStep (vteps, [], [])
  (st.1, st.2.2)

/-! ### Concrete query results and environments used as test inputs -/

/-- A well-formed Chassis row. -/
def rowChassis1 : Row :=
  [("_uuid", .ok (.vString "u1")), ("name", .ok (.vString "ch1")),
   ("encaps", .ok (.vString "e1"))]

/-- An Encap row that matches no chassis built from rowChassis1. -/
def rowEncapNoMatch : Row :=
  [("_uuid", .ok (.vString "eX")), ("type", .ok (.vString "vxlan")),
   ("chassis_name", .ok (.vString "chX")), ("ip", .ok (.vString "10.0.0.9"))]

/-- An Encap row matching the chassis built from rowChassis1 on both
components of the compound key. -/
def rowEncapMatch : Row :=
  [("_uuid", .ok (.vString "e1")), ("type", .ok (.vString "geneve")),
   ("chassis_name", .ok (.vString "ch1")), ("ip", .ok (.vString "10.0.0.1"))]

/-- A Chassis_Private row carrying no chassis identifier, keyed only by
the chassis name. -/
def rowPrivByName : Row :=
  [("name", .ok (.vString "ch1")), ("nb_cfg", .ok (.vInt64 7)),
   ("nb_cfg_timestamp", .ok (.vFloat64 9))]

/-- An identity model of the external net.ParseIP, adequate for inputs
whose rows never reach it or always carry parseable addresses. -/
def pipId : String → Option String := fun s => some s

/-- A GetChassis input whose Encap query succeeds with zero rows. -/
def envEncapEmpty : ChassisEnv :=
  { chassisQ := .ok ⟨[rowChassis1]⟩, encapQ := .ok ⟨[]⟩,
    privateQ := .error "relation does not exist", dbName := "sb", parseIP := pipId }

/-- A GetChassis input with one well-formed chassis row, one
non-matching Encap row, and a failing Chassis_Private query. -/
def envNoPrivate : ChassisEnv :=
  { chassisQ := .ok ⟨[rowChassis1]⟩, encapQ := .ok ⟨[rowEncapNoMatch]⟩,
    privateQ := .error "relation does not exist", dbName := "sb", parseIP := pipId }

/-- A GetChassis input whose Chassis_Private row is keyed only by
name. -/
def envPrivByName : ChassisEnv :=
  { chassisQ := .ok ⟨[rowChassis1]⟩, encapQ := .ok ⟨[rowEncapMatch]⟩,
    privateQ := .ok ⟨[rowPrivByName]⟩, dbName := "sb", parseIP := pipId }

/-- A system-info row whose external_ids agree with the supplied
identity but carry no hostname. -/
def rowSysNoHostname : Row :=
  [("external_ids", .ok (.vStringMap [("system-id", "sysA")])),
   ("ovs_version", .ok (.vString "3.5.1")),
   ("db_version", .ok (.vString "7.16.1")),
   ("system_type", .ok (.vString "ubuntu")),
   ("system_version", .ok (.vString "20.04"))]

/-- A system-info row whose external_ids carry a mismatching system-id
but whose metadata columns are absent. -/
def rowSysNoCols : Row :=
  [("external_ids", .ok (.vStringMap [("system-id", "sysB"), ("hostname", "h1")]))]

/-- A fully well-formed system-info row. -/
def rowSysGood : Row :=
  [("external_ids", .ok (.vStringMap [("system-id", "sysA"), ("hostname", "h1")])),
   ("ovs_version", .ok (.vString "3.5.1")),
   ("db_version", .ok (.vString "7.16.1")),
   ("system_type", .ok (.vString "ubuntu")),
   ("system_version", .ok (.vString "20.04"))]

/-- A getSystemID input whose database attempt fails because no query
client is available and whose file attempt fails to open. -/
def envNoClient : SystemIDEnv :=
  { hasClient := false, dbName := "ovs", transact := .ok ⟨[]⟩, file := .openErr "fileboom" }

/-- A getSystemID input whose database query succeeds but carries no
system-id entry, and whose file attempt fails to open. -/
def envNoDbID : SystemIDEnv :=
  { hasClient := true, dbName := "ovs",
    transact := .ok ⟨[[("external_ids", Except.ok (.vStringMap [("hostname", "h1")]))]]⟩,
    file := .openErr "fileboom2" }

/-- A getSystemID input whose transaction fails and whose file attempt
fails to open. -/
def envBothFail : SystemIDEnv :=
  { hasClient := true, dbName := "ovs", transact := .error "dbboom", file := .openErr "fileboom" }

/-- A getSystemID input that resolves a short identity from the file. -/
def envFileID : SystemIDEnv :=
  { hasClient := false, dbName := "", transact := .ok ⟨[]⟩,
    file := .content (some "host.example.com") none }

/-- The metadata map of the C4 scenario: system_version supplied by the
database row, system_type absent. -/
def infoSysVer : SIMap :=
  [("ovs_version", "2.17.0"), ("db_version", "7.16.1"), ("system_version", "20.04")]

/-- A populateVersionFromAppctl environment where the control socket
fails and the OS metadata file is unavailable. -/
def envNoOS : VersionEnv :=
  { appctl := .error "no socket", schema := some ⟨"7.16.1"⟩, osRelease := ("", "") }

/-- A Chassis_Private row whose two counter cells both carry the given
value. -/
def privRowNum (cell : Value) : Row :=
  [("chassis", .ok (.vString "uu")), ("name", .ok (.vString "nn")),
   ("nb_cfg", .ok cell), ("nb_cfg_timestamp", .ok cell)]

/-- A chassis as GetChassis returns it, input of the association
scenario. -/
def chAssoc : OvnChassis :=
  { UUID := "u1", Name := "ch1", IPAddress := some "10.0.0.1"
    Encaps := ⟨"e1", "geneve"⟩, NbCfg := 0, NbCfgTimestamp := 0, Ports := [], Switches := [] }

/-- First port of the association scenario. -/
def portAssoc1 : OvnLogicalSwitchPort := ⟨"p1", "u1", "sw-1", "", none⟩

/-- Second port of the association scenario: same chassis, same
switch. -/
def portAssoc2 : OvnLogicalSwitchPort := ⟨"p2", "u1", "sw-1", "", none⟩

/-! ### Helper lemmas -/

theorem lookup_goMapSet_self {α : Type} (m : List (String × α)) (k : String) (v : α) :
    (goMapSet m k v).lookup k = some v := by
  induction m with
  | nil => simp [goMapSet, List.lookup]
  | cons p ps ih =>
    by_cases h : p.1 = k
    · simp [goMapSet, h, List.lookup]
    · have hb : (k == p.1) = false := beq_eq_false_iff_ne.mpr (Ne.symm h)
      simp [goMapSet, h, List.lookup, hb, ih]

theorem lookup_goMapSet_ne {α : Type} (m : List (String × α)) (k k' : String) (v : α)
    (h : k' ≠ k) : (goMapSet m k v).lookup k' = m.lookup k' := by
  induction m with
  | nil => simp [goMapSet, List.lookup, beq_eq_false_iff_ne.mpr h]
  | cons p ps ih =>
    by_cases hp : p.1 = k
    · subst hp
      simp [goMapSet, List.lookup, beq_eq_false_iff_ne.mpr h]
    · simp only [goMapSet, if_neg hp]
      by_cases hk' : k' = p.1
      · simp [List.lookup, hk']
      · simp [List.lookup, beq_eq_false_iff_ne.mpr hk', ih]

theorem parseCol_ok_lookup (row : Row) (m m' : SIMap) (c k : String)
    (h : parseCol row m c = .ok m') (hk : k ≠ c) : m'.lookup k = m.lookup k := by
  rw [parseCol] at h
  rcases hg : getColumnValue row c with e | ⟨v, dt⟩ <;> rw [hg] at h
  · exact Except.noConfusion h
  · cases v with
    | vString s =>
      injection h with h'
      rw [← h']
      exact lookup_goMapSet_ne m c k _ hk
    | vStringList arr =>
      injection h with h'
      rw [← h']
      exact lookup_goMapSet_ne m c k _ hk
    | vStringMap x => exact Except.noConfusion h
    | vInt64 x => exact Except.noConfusion h
    | vInteger x => exact Except.noConfusion h
    | vFloat64 x => exact Except.noConfusion h
    | vInt x => exact Except.noConfusion h

theorem parseCols_ok_lookup (row : Row) :
    ∀ (cols : List String) (m m' : SIMap), parseCols row m cols = .ok m' →
      ∀ k, k ∉ cols → m'.lookup k = m.lookup k := by
  intro cols
  induction cols with
  | nil =>
    intro m m' h k _
    rw [parseCols] at h
    injection h with h'
    rw [h']
  | cons c cs ih =>
    intro m m' h k hk
    rw [parseCols] at h
    rcases hpc : parseCol row m c with e | m1 <;> rw [hpc] at h
    · exact absurd h (by simp)
    · have h1 := ih m1 m' h k (fun hmem => hk (List.mem_cons_of_mem c hmem))
      have h2 := parseCol_ok_lookup row m m1 c k hpc (fun hek => hk (hek ▸ List.mem_cons_self c cs))
      rw [h1, h2]

theorem lengthChecked_le (s : String) (h : (lengthChecked s).2 = none) :
    (lengthChecked s).1.utf8ByteSize ≤ 253 := by
  rw [lengthChecked] at h ⊢
  by_cases hl : s.utf8ByteSize > 253
  · rw [if_pos hl] at h
    exact absurd h (by simp)
  · rw [if_neg hl]
    show s.utf8ByteSize ≤ 253
    omega

theorem fileFallback_shape (d : Option String) (f : FileRead) :
    (∃ s, fileFallback d f = lengthChecked s) ∨ ∃ e, (fileFallback d f).2 = some e := by
  cases f with
  | openErr e => cases d <;> simp [fileFallback]
  | content firstLine readErr =>
    cases readErr with
    | some e => cases d <;> simp [fileFallback]
    | none => exact Or.inl ⟨firstLine.getD "", rfl⟩

theorem getSystemID_shape (env : SystemIDEnv) :
    (∃ s, getSystemID env = lengthChecked s) ∨ ∃ e, (getSystemID env).2 = some e := by
  rw [getSystemID]
  repeat' split
  all_goals first
    | exact fileFallback_shape _ _
    | exact Or.inl ⟨_, rfl⟩

theorem decodeChassisRow_defaults (row : Row) (c : OvnChassis)
    (h : decodeChassisRow row = some c) :
    c.IPAddress = none ∧ c.Encaps.Proto = "" ∧ c.NbCfg = 0 ∧ c.NbCfgTimestamp = 0 ∧
      c.Ports = [] ∧ c.Switches = [] := by
  rw [decodeChassisRow] at h
  rcases hu : getStringCol row "_uuid" with _ | uuid <;> rw [hu] at h
  · exact Option.noConfusion h
  · rcases hn : getStringCol row "name" with _ | name <;> rw [hn] at h
    · exact Option.noConfusion h
    · rcases he : getStringCol row "encaps" with _ | encapsUUID <;> rw [he] at h
      · exact Option.noConfusion h
      · injection h with h'
        rw [← h']
        exact ⟨rfl, rfl, rfl, rfl, rfl, rfl⟩

theorem phase1_defaults (rows : List Row) (c : OvnChassis)
    (h : c ∈ rows.filterMap decodeChassisRow) :
    c.IPAddress = none ∧ c.Encaps.Proto = "" ∧ c.NbCfg = 0 ∧ c.NbCfgTimestamp = 0 ∧
      c.Ports = [] ∧ c.Switches = [] := by
  obtain ⟨row, _, hdec⟩ := List.mem_filterMap.mp h
  exact decodeChassisRow_defaults row c hdec

theorem mem_updateFirst {α : Type} (p : α → Bool) (f : α → α) (l : List α) (a : α)
    (h : a ∈ updateFirst p f l) : a ∈ l ∨ ∃ b, b ∈ l ∧ p b = true ∧ a = f b := by
  induction l with
  | nil => exact absurd h (by simp [updateFirst])
  | cons x xs ih =>
    rw [updateFirst] at h
    by_cases hp : p x
    · rw [if_pos hp] at h
      rcases List.mem_cons.mp h with h1 | h1
      · exact Or.inr ⟨x, List.mem_cons_self x xs, hp, h1⟩
      · exact Or.inl (List.mem_cons_of_mem x h1)
    · rw [if_neg hp] at h
      rcases List.mem_cons.mp h with h1 | h1
      · exact Or.inl (h1 ▸ List.mem_cons_self x xs)
      · rcases ih h1 with h2 | ⟨b, hb, hpb, hab⟩
        · exact Or.inl (List.mem_cons_of_mem x h2)
        · exact Or.inr ⟨b, List.mem_cons_of_mem x hb, hpb, hab⟩

theorem mem_applyEncapRow (parseIP : String → Option String) (cs : List OvnChassis)
    (row : Row) (c : OvnChassis) (h : c ∈ applyEncapRow parseIP cs row) :
    c ∈ cs ∨ ∃ b er, b ∈ cs ∧ decodeEncapRow row = some er ∧ encapMatches er b = true ∧
      c = encapUpd parseIP er b := by
  rw [applyEncapRow] at h
  rcases hd : decodeEncapRow row with _ | er <;> rw [hd] at h
  · exact Or.inl h
  · rcases mem_updateFirst _ _ _ _ h with h1 | ⟨b, hb, hpb, hab⟩
    · exact Or.inl h1
    · exact Or.inr ⟨b, er, hb, rfl, hpb, hab⟩

theorem updateFirst_forall {α : Type} {P : α → Prop} (p : α → Bool) (f : α → α)
    (hf : ∀ a, P a → P (f a)) (l : List α) (hl : ∀ a ∈ l, P a) :
    ∀ a ∈ updateFirst p f l, P a := by
  intro a ha
  rcases mem_updateFirst p f l a ha with h | ⟨b, hb, _, hab⟩
  · exact hl a h
  · exact hab ▸ hf b (hl b hb)

theorem applyEncapRow_forall {P : OvnChassis → Prop} (parseIP : String → Option String)
    (hupd : ∀ er c, P c → P (encapUpd parseIP er c)) (cs : List OvnChassis) (row : Row)
    (hcs : ∀ c ∈ cs, P c) : ∀ c ∈ applyEncapRow parseIP cs row, P c := by
  intro c hc
  rcases mem_applyEncapRow parseIP cs row c hc with h | ⟨b, er, hb, _, _, hcb⟩
  · exact hcs c h
  · exact hcb ▸ hupd er b (hcs b hb)

theorem foldl_applyEncapRow_forall {P : OvnChassis → Prop} (parseIP : String → Option String)
    (hupd : ∀ er c, P c → P (encapUpd parseIP er c)) :
    ∀ (rows : List Row) (cs : List OvnChassis), (∀ c ∈ cs, P c) →
      ∀ c ∈ rows.foldl (applyEncapRow parseIP) cs, P c := by
  intro rows
  induction rows with
  | nil => exact fun cs h => h
  | cons r rs ih =>
    intro cs hcs c hc
    rw [List.foldl_cons] at hc
    exact ih _ (applyEncapRow_forall parseIP hupd cs r hcs) c hc

/-- A chassis present after the phase-2 fold that no Encap row joins
with was never updated: it is an element of the phase-1 list. -/
theorem foldl_applyEncapRow_noMatch (parseIP : String → Option String) :
    ∀ (rows : List Row) (cs : List OvnChassis) (c : OvnChassis),
      c ∈ rows.foldl (applyEncapRow parseIP) cs →
      (∀ row ∈ rows, rowMatchesChassis row c = false) → c ∈ cs := by
  intro rows
  induction rows with
  | nil => exact fun cs c h _ => h
  | cons r rs ih =>
    intro cs c h hnm
    rw [List.foldl_cons] at h
    have h1 : c ∈ applyEncapRow parseIP cs r :=
      ih _ c h (fun row hrow => hnm row (List.mem_cons_of_mem r hrow))
    rcases mem_applyEncapRow parseIP cs r c h1 with h2 | ⟨b, er, hb, hdec, hpb, hcb⟩
    · exact h2
    · exfalso
      have hnr : encapMatches er c = false := by
        have h' := hnm r (List.mem_cons_self r rs)
        rw [rowMatchesChassis, hdec] at h'
        simpa using h'
      have hcbm : encapMatches er c = encapMatches er b := by rw [hcb]; rfl
      rw [hcbm, hpb] at hnr
      exact Bool.noConfusion hnr

theorem length_updateFirst {α : Type} (p : α → Bool) (f : α → α) (l : List α) :
    (updateFirst p f l).length = l.length := by
  induction l with
  | nil => rfl
  | cons x xs ih =>
    rw [updateFirst]
    by_cases hp : p x
    · rw [if_pos hp, List.length_cons, List.length_cons]
    · rw [if_neg hp, List.length_cons, List.length_cons, ih]

theorem length_applyEncapRow (parseIP : String → Option String) (cs : List OvnChassis)
    (row : Row) : (applyEncapRow parseIP cs row).length = cs.length := by
  rw [applyEncapRow]
  rcases hd : decodeEncapRow row with _ | er
  · rfl
  · exact length_updateFirst _ _ cs

theorem length_foldl_applyEncapRow (parseIP : String → Option String) :
    ∀ (rows : List Row) (cs : List OvnChassis),
      (rows.foldl (applyEncapRow parseIP) cs).length = cs.length := by
  intro rows
  induction rows with
  | nil => exact fun _ => rfl
  | cons r rs ih =>
    intro cs
    rw [List.foldl_cons, ih, length_applyEncapRow]

theorem applyPrivate_char (cfgMap tsMap : List (String × Int)) (cs : List OvnChassis)
    (hcs : ∀ b ∈ cs, b.NbCfg = 0 ∧ b.NbCfgTimestamp = 0) :
    ∀ c ∈ applyPrivate cfgMap tsMap cs,
      c.NbCfg = (cfgMap.lookup c.UUID).getD ((cfgMap.lookup c.Name).getD 0) ∧
      c.NbCfgTimestamp = (tsMap.lookup c.UUID).getD ((tsMap.lookup c.Name).getD 0) := by
  intro c hc
  rw [applyPrivate] at hc
  obtain ⟨b, hb, hcb⟩ := List.mem_map.mp hc
  obtain ⟨hb1, hb2⟩ := hcs b hb
  have huuid : c.UUID = b.UUID := by rw [← hcb]; rfl
  have hname : c.Name = b.Name := by rw [← hcb]; rfl
  constructor
  · have h0 : c.NbCfg = (privUpd cfgMap tsMap b).NbCfg := by rw [hcb]
    rw [h0, huuid, hname]
    rcases hu : cfgMap.lookup b.UUID with _ | v
    · rcases hn : cfgMap.lookup b.Name with _ | v
      · simp [privUpd, hu, hn, hb1]
      · simp [privUpd, hu, hn]
    · simp [privUpd, hu]
  · have h0 : c.NbCfgTimestamp = (privUpd cfgMap tsMap b).NbCfgTimestamp := by rw [hcb]
    rw [h0, huuid, hname]
    rcases hu : tsMap.lookup b.UUID with _ | v
    · rcases hn : tsMap.lookup b.Name with _ | v
      · simp [privUpd, hu, hn, hb2]
      · simp [privUpd, hu, hn]
    · simp [privUpd, hu]

theorem getChassis_eq_noPrivate (env : ChassisEnv) (r1 r2 : Result) (e : String)
    (h1 : env.chassisQ = .ok r1) (hr1 : r1.rows ≠ [])
    (h2 : env.encapQ = .ok r2) (hr2 : r2.rows ≠ [])
    (h3 : env.privateQ = .error e) :
    getChassis env =
      .ok (r2.rows.foldl (applyEncapRow env.parseIP) (r1.rows.filterMap decodeChassisRow)) := by
  obtain ⟨row1, rs1, hr1c⟩ := List.exists_cons_of_ne_nil hr1
  obtain ⟨row2, rs2, hr2c⟩ := List.exists_cons_of_ne_nil hr2
  simp only [getChassis, h1, h2, h3, hr1c, hr2c]

theorem getChassis_eq_private (env : ChassisEnv) (r1 r2 r3 : Result)
    (h1 : env.chassisQ = .ok r1) (hr1 : r1.rows ≠ [])
    (h2 : env.encapQ = .ok r2) (hr2 : r2.rows ≠ [])
    (h3 : env.privateQ = .ok r3) :
    getChassis env =
      .ok (applyPrivate (buildPrivateMaps r3.rows).1 (buildPrivateMaps r3.rows).2
        (r2.rows.foldl (applyEncapRow env.parseIP) (r1.rows.filterMap decodeChassisRow))) := by
  obtain ⟨row1, rs1, hr1c⟩ := List.exists_cons_of_ne_nil hr1
  obtain ⟨row2, rs2, hr2c⟩ := List.exists_cons_of_ne_nil hr2
  simp only [getChassis, h1, h2, h3, hr1c, hr2c]

theorem filter_single_pred {α : Type} (p : α → Bool) (l : List α) (c : α)
    (h : l.filter p = [c]) : p c = true := by
  have hc : c ∈ l.filter p := by rw [h]; exact List.mem_singleton_self c
  exact (List.mem_filter.mp hc).2

theorem lastMatch_of_filter_nil {α : Type} (p : α → Bool) (l : List α)
    (h : l.filter p = []) : lastMatch p l = none := by
  induction l with
  | nil => rfl
  | cons a as ih =>
    rw [List.filter_cons] at h
    by_cases hp : p a
    · rw [if_pos hp] at h
      exact List.noConfusion h
    · rw [if_neg hp] at h
      rw [lastMatch, ih h, if_neg hp]

theorem lastMatch_of_filter_single {α : Type} (p : α → Bool) (l : List α) (c : α)
    (h : l.filter p = [c]) : lastMatch p l = some c := by
  induction l with
  | nil => exact absurd h (by simp)
  | cons a as ih =>
    rw [List.filter_cons] at h
    by_cases hp : p a
    · rw [if_pos hp] at h
      injection h with h1 h2
      rw [lastMatch, lastMatch_of_filter_nil p as h2, if_pos hp, h1]
    · rw [if_neg hp] at h
      rw [lastMatch, ih h]

theorem updateLast_of_filter_single {α : Type} (p : α → Bool) (f : α → α) (l : List α) (c : α)
    (h : l.filter p = [c]) (hf : p (f c) = true) : (updateLast p f l).filter p = [f c] := by
  induction l with
  | nil => exact absurd h (by simp)
  | cons a as ih =>
    rw [List.filter_cons] at h
    rw [updateLast]
    by_cases hany : as.any p
    · rw [if_pos hany]
      by_cases hp : p a
      · exfalso
        rw [if_pos hp] at h
        injection h with h1 h2
        obtain ⟨x, hx, hpx⟩ := List.any_eq_true.mp hany
        exact (List.filter_eq_nil_iff.mp h2) x hx hpx
      · rw [if_neg hp] at h
        rw [List.filter_cons, if_neg hp]
        exact ih h
    · rw [if_neg hany]
      have hfa : as.filter p = [] := by
        rw [List.filter_eq_nil_iff]
        intro x hx hpx
        exact hany (List.any_eq_true.mpr ⟨x, hx, hpx⟩)
      by_cases hp : p a
      · rw [if_pos hp]
        rw [if_pos hp, hfa] at h
        injection h with h1 _
        rw [h1, List.filter_cons, if_pos hf, hfa]
      · exfalso
        rw [if_neg hp, hfa] at h
        exact List.noConfusion h

theorem roundNat53_small (a : Nat) (h : a ≤ 2 ^ 53) : roundNat53 a = a := by
  rw [roundNat53, if_pos h]

theorem int64ToFloat64_small (v : Int) (h : v.natAbs ≤ 2 ^ 53) : int64ToFloat64 v = v := by
  rw [int64ToFloat64]
  by_cases hv : 0 ≤ v
  · rw [if_pos hv, roundNat53_small v.toNat (by omega)]
    omega
  · rw [if_neg hv, roundNat53_small (-v).toNat (by omega)]
    omega

theorem goFloat64ToInt64_small (f : Int) (h : f.natAbs ≤ 2 ^ 53) : goFloat64ToInt64 f = f := by
  rw [goFloat64ToInt64, if_pos]
  constructor <;> omega

theorem decodePrivateRow_privRowNum (cell : Value) :
    (decodePrivateRow (privRowNum cell)).nbCfg = numFromCell cell ∧
    (decodePrivateRow (privRowNum cell)).nbCfgTimestamp = numFromCell cell :=
  ⟨rfl, rfl⟩

/-! ### Claims -/

/-- Claim C10: for every query result with at least one row, the map
and error returned by parseSystemInfo are determined entirely by the
first row — the output equals the output on the result truncated to its
first row. -/
theorem claim_C10 (systemID : String) (row : Row) (rest : List Row) :
    parseSystemInfo systemID ⟨row :: rest⟩ = parseSystemInfo systemID ⟨[row]⟩ := rfl

/-- Claim C9: whenever getSystemID returns with a nil error, the
identity it returns is at most 253 bytes long; equivalently it never
returns an identity longer than 253 bytes together with a nil error,
whichever source (database or file) produced it. -/
theorem claim_C9 (env : SystemIDEnv) (h : (getSystemID env).2 = none) :
    (getSystemID env).1.utf8ByteSize ≤ 253 := by
  rcases getSystemID_shape env with ⟨s, hs⟩ | ⟨e, he⟩
  · rw [hs] at h ⊢
    exact lengthChecked_le s h
  · rw [h] at he
    exact Option.noConfusion he

theorem claim_C9_witness :
    (getSystemID envFileID).2 = none ∧ (getSystemID envFileID).1.utf8ByteSize ≤ 253 :=
  ⟨by decide, claim_C9 envFileID (by decide)⟩

/-- Claim C3 counterexample: the claim states that whenever the
database attempt fails for any reason (including an unavailable client
or an absent system-id) and the file attempt also fails, the error
reports both causes.  With no client (envNoClient) or with a usable
query lacking a system-id entry (envNoDbID) and a failing file open,
the returned error is exactly the file error and carries no database
cause at all (the word "database" does not even occur in it). -/
theorem claim_C3_counterexample :
    getSystemID envNoClient = ("", some "fileboom") ∧
    getSystemID envNoDbID = ("", some "fileboom2") ∧
    ¬ ("database".toList <:+: "fileboom".toList) :=
  ⟨by decide, by decide, by decide⟩

/-- Claim C3 (amended): only when the database attempt fails with a
transport error from the Transact call itself is the file failure
(open error or read error) reported together with the database cause in
one combined error; database attempts that fail because the client is
unavailable or because the result lacks a usable system-id record no
database cause. -/
theorem claim_C3 (dbName dbErr fileErr : String) (file : FileRead)
    (hdb : dbName ≠ "")
    (hfile : file = .openErr fileErr ∨ ∃ firstLine, file = .content firstLine (some fileErr)) :
    getSystemID ⟨true, dbName, .error dbErr, file⟩ =
      ("", some ("failed to get system-id from database (" ++ dbErr ++ ") and file ("
        ++ fileErr ++ ")")) := by
  rw [getSystemID]
  split
  · rcases hfile with rfl | ⟨firstLine, rfl⟩ <;> rfl
  · next hcond => exact absurd ⟨rfl, hdb⟩ hcond

theorem claim_C3_witness :
    getSystemID envBothFail =
      ("", some "failed to get system-id from database (dbboom) and file (fileboom)") := by
  have h := claim_C3 "ovs" "dbboom" "fileboom" (.openErr "fileboom") (by decide) (Or.inl rfl)
  exact h.trans (by decide)

/-- Claim C4: the claim states that a non-empty database-supplied value
of each metadata field is left unchanged by populateVersionFromAppctl.
This fails for system_version: on a map carrying system_version
"20.04" but no system_type, the source's system_type branch overwrites
system_version (here to "unknown", the OS metadata file being
unavailable). -/
theorem claim_C4 :
    infoSysVer.lookup "system_version" = some "20.04" ∧
    (populateVersionFromAppctl infoSysVer envNoOS).lookup "system_version" = some "unknown" :=
  ⟨by decide, by decide⟩

/-- Claim C5 counterexample: the claim quantifies over every 64-bit
integer v, but a float64 cell cannot carry every such v: for
v = 2^53 + 1 the conversion float64(v) rounds to 2^53, so the decoded
counter under the "float64" tag differs from the value decoded under
the "int64" tag. -/
theorem claim_C5_counterexample :
    (decodePrivateRow (privRowNum (.vInt64 9007199254740993))).nbCfg = 9007199254740993 ∧
    (decodePrivateRow (privRowNum (.vFloat64 (int64ToFloat64 9007199254740993)))).nbCfg
      = 9007199254740992 ∧
    (9007199254740992 : Int) ≠ 9007199254740993 :=
  ⟨by decide, by decide, by decide⟩

/-- Claim C5 (amended): for every 64-bit integer v of magnitude at most
2^53 (so that float64(v) is exact), decoding the nb_cfg (or
nb_cfg_timestamp) cell of a Chassis_Private row produces the same value
v under all four numeric type tags: int64, integer, float64 and int. -/
theorem claim_C5 (v : Int) (h : v.natAbs ≤ 2 ^ 53) :
    (decodePrivateRow (privRowNum (.vInt64 v))).nbCfg = v ∧
    (decodePrivateRow (privRowNum (.vInteger v))).nbCfg = v ∧
    (decodePrivateRow (privRowNum (.vFloat64 (int64ToFloat64 v)))).nbCfg = v ∧
    (decodePrivateRow (privRowNum (.vInt v))).nbCfg = v ∧
    (decodePrivateRow (privRowNum (.vFloat64 (int64ToFloat64 v)))).nbCfgTimestamp = v := by
  have hf : numFromCell (.vFloat64 (int64ToFloat64 v)) = v := by
    show goFloat64ToInt64 (int64ToFloat64 v) = v
    rw [int64ToFloat64_small v h]
    exact goFloat64ToInt64_small v h
  refine ⟨rfl, rfl, ?_, rfl, ?_⟩
  · rw [(decodePrivateRow_privRowNum _).1, hf]
  · rw [(decodePrivateRow_privRowNum _).2, hf]

theorem claim_C5_witness :
    (decodePrivateRow (privRowNum (.vInt64 42))).nbCfg = 42 ∧
    (decodePrivateRow (privRowNum (.vInteger 42))).nbCfg = 42 ∧
    (decodePrivateRow (privRowNum (.vFloat64 (int64ToFloat64 42)))).nbCfg = 42 ∧
    (decodePrivateRow (privRowNum (.vInt 42))).nbCfg = 42 ∧
    (decodePrivateRow (privRowNum (.vFloat64 (int64ToFloat64 42)))).nbCfgTimestamp = 42 :=
  claim_C5 42 (by decide)

/-- Claim C2 counterexample: the claim states that parseSystemInfo
fails with the identity-mismatch error whenever the first row's
system-id entry differs from the supplied identity, and returns a nil
error whenever they agree.  Both directions fail as stated: with
agreeing identities but no hostname entry the call still errs
(rowSysNoHostname), and with a differing system-id but an absent
metadata column the call errs with a parse error instead of the
mismatch error (rowSysNoCols). -/
theorem claim_C2_counterexample :
    (parseSystemInfo "sysA" ⟨[rowSysNoHostname]⟩).2 = some "no mandatory 'hostname' found" ∧
    (parseSystemInfo "sysA" ⟨[rowSysNoCols]⟩).2 =
      some "parsing 'ovs_version' failed: column ovs_version not found" :=
  ⟨by decide, by decide⟩

/-- Claim C2 (amended): for every supplied expected identity and every
query result whose first row carries a decodable external_ids map
containing a system-id entry and whose four metadata columns decode
successfully, parseSystemInfo fails with the identity-mismatch error if
that entry differs from the supplied identity, and returns a nil error
if the two are equal and the map also carries the mandatory hostname
entry. -/
theorem claim_C2 (sid : String) (row : Row) (rest : List Row) (m : SIMap) (dbid : String)
    (hm : getColumnValue row "external_ids" = .ok (.vStringMap m, "map[string]string"))
    (hcols : (parseCols row m systemInfoColumns).toOption.isSome = true)
    (hid : m.lookup "system-id" = some dbid) :
    (dbid ≠ sid →
      (parseSystemInfo sid ⟨row :: rest⟩).2 =
        some ("found 'system-id' mismatch " ++ dbid ++ " (db) vs. " ++ sid ++ " (config)")) ∧
    (dbid = sid → (m.lookup "hostname").isSome = true →
      (parseSystemInfo sid ⟨row :: rest⟩).2 = none) := by
  rcases hok : parseCols row m systemInfoColumns with e | m'
  · rw [hok] at hcols
    exact absurd hcols (by simp [Except.toOption])
  · have hfr : parseFirstRow row = .ok m' := by
      rw [parseFirstRow, hm]
      exact hok
    have hsid : m'.lookup "system-id" = some dbid :=
      (parseCols_ok_lookup row systemInfoColumns m m' hok "system-id" (by decide)).trans hid
    have hhost : m'.lookup "hostname" = m.lookup "hostname" :=
      parseCols_ok_lookup row systemInfoColumns m m' hok "hostname" (by decide)
    constructor
    · intro hne
      simp only [parseSystemInfo, hfr, hsid]
      rw [if_pos hne]
    · intro heq hh
      rcases hmh : m.lookup "hostname" with _ | hv
      · rw [hmh] at hh
        exact absurd hh (by simp)
      · simp only [parseSystemInfo, hfr, hsid]
        rw [if_neg (fun hne => hne heq)]
        rcases hrd : m'.lookup "rundir" with _ | rv
        · have hh2 : (goMapSet m' "rundir" "/var/run/openvswitch").lookup "hostname" = some hv := by
            rw [lookup_goMapSet_ne m' "rundir" "hostname" _ (by decide), hhost, hmh]
          simp only [hrd, checkRequired, hh2]
        · have hh2 : m'.lookup "hostname" = some hv := hhost.trans hmh
          simp only [hrd, checkRequired, hh2]

theorem claim_C2_witness :
    (parseSystemInfo "sysB" ⟨[rowSysGood]⟩).2 =
      some "found 'system-id' mismatch sysA (db) vs. sysB (config)" := by
  have h := (claim_C2 "sysB" rowSysGood [] [("system-id", "sysA"), ("hostname", "h1")] "sysA"
    (by decide) (by decide) (by decide)).1 (by decide)
  exact h.trans (by decide)

theorem rowMatchesChassis_privUpd (m1 m2 : List (String × Int)) (row : Row) (b : OvnChassis) :
    rowMatchesChassis row (privUpd m1 m2 b) = rowMatchesChassis row b := by
  rw [rowMatchesChassis, rowMatchesChassis]
  rcases hd : decodeEncapRow row with _ | er
  · rfl
  · rfl

/-- Claim C6: when the Chassis_Private query fails, GetChassis returns
the phase-1/2 chassis list unmodified with a nil error; every chassis
still carries NbCfg = 0 and NbCfgTimestamp = 0 and none is dropped. -/
theorem claim_C6 (env : ChassisEnv) (r1 r2 : Result) (e : String)
    (h1 : env.chassisQ = .ok r1) (hr1 : r1.rows ≠ [])
    (h2 : env.encapQ = .ok r2) (hr2 : r2.rows ≠ [])
    (h3 : env.privateQ = .error e) :
    getChassis env =
      .ok (r2.rows.foldl (applyEncapRow env.parseIP) (r1.rows.filterMap decodeChassisRow)) ∧
    ∀ c ∈ r2.rows.foldl (applyEncapRow env.parseIP) (r1.rows.filterMap decodeChassisRow),
      c.NbCfg = 0 ∧ c.NbCfgTimestamp = 0 := by
  refine ⟨getChassis_eq_noPrivate env r1 r2 e h1 hr1 h2 hr2 h3, ?_⟩
  refine foldl_applyEncapRow_forall env.parseIP ?_ r2.rows _ ?_
  · intro er c hc
    exact hc
  · intro c hc
    obtain ⟨_, _, h5, h6, _, _⟩ := phase1_defaults r1.rows c hc
    exact ⟨h5, h6⟩

theorem claim_C6_witness :
    getChassis envNoPrivate =
      .ok [{ UUID := "u1", Name := "ch1", IPAddress := none,
             Encaps := { UUID := "e1", Proto := "" }, NbCfg := 0, NbCfgTimestamp := 0,
             Ports := [], Switches := [] }] ∧
    ∀ c ∈ [({ UUID := "u1", Name := "ch1", IPAddress := none,
              Encaps := { UUID := "e1", Proto := "" }, NbCfg := 0, NbCfgTimestamp := 0,
              Ports := [], Switches := [] } : OvnChassis)],
      c.NbCfg = 0 ∧ c.NbCfgTimestamp = 0 := by
  have h := claim_C6 envNoPrivate ⟨[rowChassis1]⟩ ⟨[rowEncapNoMatch]⟩ "relation does not exist"
    rfl (by decide) rfl (by decide) rfl
  exact ⟨h.1.trans (by decide), by decide⟩

/-- Claim C7: after Chassis_Private processing, each chassis carries
the private-table counter indexed under its UUID when present,
otherwise the one indexed under its name when present, otherwise 0 —
independently for NbCfg and NbCfgTimestamp. -/
theorem claim_C7 (env : ChassisEnv) (r1 r2 r3 : Result)
    (h1 : env.chassisQ = .ok r1) (hr1 : r1.rows ≠ [])
    (h2 : env.encapQ = .ok r2) (hr2 : r2.rows ≠ [])
    (h3 : env.privateQ = .ok r3) :
    getChassis env =
      .ok (applyPrivate (buildPrivateMaps r3.rows).1 (buildPrivateMaps r3.rows).2
        (r2.rows.foldl (applyEncapRow env.parseIP) (r1.rows.filterMap decodeChassisRow))) ∧
    ∀ c ∈ applyPrivate (buildPrivateMaps r3.rows).1 (buildPrivateMaps r3.rows).2
        (r2.rows.foldl (applyEncapRow env.parseIP) (r1.rows.filterMap decodeChassisRow)),
      c.NbCfg = ((buildPrivateMaps r3.rows).1.lookup c.UUID).getD
        (((buildPrivateMaps r3.rows).1.lookup c.Name).getD 0) ∧
      c.NbCfgTimestamp = ((buildPrivateMaps r3.rows).2.lookup c.UUID).getD
        (((buildPrivateMaps r3.rows).2.lookup c.Name).getD 0) := by
  refine ⟨getChassis_eq_private env r1 r2 r3 h1 hr1 h2 hr2 h3, ?_⟩
  refine applyPrivate_char _ _ _ ?_
  refine foldl_applyEncapRow_forall env.parseIP ?_ r2.rows _ ?_
  · intro er c hc
    exact hc
  · intro c hc
    obtain ⟨_, _, h5, h6, _, _⟩ := phase1_defaults r1.rows c hc
    exact ⟨h5, h6⟩

theorem claim_C7_witness :
    getChassis envPrivByName =
      .ok [{ UUID := "u1", Name := "ch1", IPAddress := some "10.0.0.1",
             Encaps := { UUID := "e1", Proto := "geneve" }, NbCfg := 7, NbCfgTimestamp := 9,
             Ports := [], Switches := [] }] ∧
    (buildPrivateMaps (⟨[rowPrivByName]⟩ : Result).rows).1.lookup "u1" = none ∧
    (buildPrivateMaps (⟨[rowPrivByName]⟩ : Result).rows).1.lookup "ch1" = some 7 := by
  have h := claim_C7 envPrivByName ⟨[rowChassis1]⟩ ⟨[rowEncapMatch]⟩ ⟨[rowPrivByName]⟩
    rfl (by decide) rfl (by decide) rfl
  exact ⟨h.1.trans (by decide), by decide, by decide⟩

/-- Claim C1 counterexample: the claim includes a successful endpoint
(Encap) query result with zero rows among the cases where GetChassis
returns the built list without error, but the source treats an empty
Encap result as a hard failure: with one well-formed Chassis row and an
empty Encap result the call errs and returns no list. -/
theorem claim_C1_counterexample :
    getChassis envEncapEmpty = .error "sb: no chassis found" ∧
    ∀ cs, getChassis envEncapEmpty ≠ .ok cs := by
  have h : getChassis envEncapEmpty = .error "sb: no chassis found" := by decide
  exact ⟨h, fun cs hcs => Except.noConfusion (h.symm.trans hcs)⟩

/-- Claim C1 (amended): for every successful base Chassis query with at
least one well-formed row and every successful endpoint (Encap) query
with at least one row — matching or not — GetChassis returns the built
chassis list without error, and each chassis joined by no endpoint row
is still present with a zero-value IP address and an empty
encapsulation protocol. -/
theorem claim_C1 (env : ChassisEnv) (r1 r2 : Result)
    (h1 : env.chassisQ = .ok r1)
    (h2 : ∃ row ∈ r1.rows, (decodeChassisRow row).isSome)
    (h3 : env.encapQ = .ok r2) (h4 : r2.rows ≠ []) :
    ∃ cs, getChassis env = .ok cs ∧ cs ≠ [] ∧
      ∀ c ∈ cs, (∀ row ∈ r2.rows, rowMatchesChassis row c = false) →
        c.IPAddress = none ∧ c.Encaps.Proto = "" := by
  obtain ⟨row0, hrow0, hdec0⟩ := h2
  have hr1 : r1.rows ≠ [] := by
    intro hnil
    rw [hnil] at hrow0
    exact absurd hrow0 (List.not_mem_nil row0)
  have hcs1ne : r1.rows.filterMap decodeChassisRow ≠ [] := by
    obtain ⟨c0, hc0⟩ := Option.isSome_iff_exists.mp hdec0
    have hmem : c0 ∈ r1.rows.filterMap decodeChassisRow :=
      List.mem_filterMap.mpr ⟨row0, hrow0, hc0⟩
    intro hnil
    rw [hnil] at hmem
    exact absurd hmem (List.not_mem_nil c0)
  have hcs2ne : r2.rows.foldl (applyEncapRow env.parseIP) (r1.rows.filterMap decodeChassisRow)
      ≠ [] := by
    intro hnil
    have hlen := length_foldl_applyEncapRow env.parseIP r2.rows
      (r1.rows.filterMap decodeChassisRow)
    rw [hnil] at hlen
    exact hcs1ne (List.length_eq_zero.mp hlen.symm)
  have hprop2 : ∀ c ∈ r2.rows.foldl (applyEncapRow env.parseIP)
      (r1.rows.filterMap decodeChassisRow),
      (∀ row ∈ r2.rows, rowMatchesChassis row c = false) →
      c.IPAddress = none ∧ c.Encaps.Proto = "" := by
    intro c hc hnm
    have hc1 := foldl_applyEncapRow_noMatch env.parseIP r2.rows _ c hc hnm
    obtain ⟨hip, hproto, _, _, _, _⟩ := phase1_defaults r1.rows c hc1
    exact ⟨hip, hproto⟩
  rcases hq : env.privateQ with e | r3
  · exact ⟨_, getChassis_eq_noPrivate env r1 r2 e h1 hr1 h3 h4 hq, hcs2ne, hprop2⟩
  · refine ⟨_, getChassis_eq_private env r1 r2 r3 h1 hr1 h3 h4 hq, ?_, ?_⟩
    · intro hnil
      have hlen := congrArg List.length hnil
      rw [applyPrivate, List.length_map] at hlen
      exact hcs2ne (List.length_eq_zero.mp hlen)
    · intro c hc hnm
      rw [applyPrivate] at hc
      obtain ⟨b, hb, hcb⟩ := List.mem_map.mp hc
      have hmatchb : ∀ row ∈ r2.rows, rowMatchesChassis row b = false := by
        intro row hrow
        have h' := hnm row hrow
        rw [← hcb, rowMatchesChassis_privUpd] at h'
        exact h'
      obtain ⟨hip, hproto⟩ := hprop2 b hb hmatchb
      constructor
      · rw [← hcb]
        exact hip
      · rw [← hcb]
        exact hproto

theorem claim_C1_witness :
    ∃ cs, getChassis envNoPrivate = .ok cs ∧ cs ≠ [] ∧
      ∀ c ∈ cs, (∀ row ∈ (⟨[rowEncapNoMatch]⟩ : Result).rows, rowMatchesChassis row c = false) →
        c.IPAddress = none ∧ c.Encaps.Proto = "" :=
  claim_C1 envNoPrivate ⟨[rowChassis1]⟩ ⟨[rowEncapNoMatch]⟩ rfl (by decide) rfl (by decide)

/-- Claim C8: invoking MapPortToChassis with two logical switch ports
that both reference the same present chassis UUID and the same logical
switch UUID leaves that switch UUID exactly once in the chassis's
Switches collection (deduplicated through the per-invocation auxiliary
set) while both port UUIDs appear in its Ports collection. -/
theorem claim_C8 (vteps : List OvnChassis) (p1 p2 : OvnLogicalSwitchPort) (c0 : OvnChassis)
    (hflt : vteps.filter (fun c => c.UUID == p1.ChassisUUID) = [c0])
    (hsame : p2.ChassisUUID = p1.ChassisUUID)
    (hsw : p2.LogicalSwitchUUID = p1.LogicalSwitchUUID)
    (hfresh : c0.Switches.count p1.LogicalSwitchUUID = 0) :
    ∃ c', (mapPortToChassis vteps [p1, p2]).1.filter (fun c => c.UUID == p1.ChassisUUID) = [c'] ∧
      c'.Switches.count p1.LogicalSwitchUUID = 1 ∧
      p1.UUID ∈ c'.Ports ∧ p2.UUID ∈ c'.Ports := by
  have hpc0 : (fun c : OvnChassis => c.UUID == p1.ChassisUUID) c0 = true :=
    filter_single_pred _ vteps c0 hflt
  have hlm1 : lastMatch (fun c : OvnChassis => c.UUID == p1.ChassisUUID) vteps = some c0 :=
    lastMatch_of_filter_single _ vteps c0 hflt
  have hflt1 : (updateLast (fun c : OvnChassis => c.UUID == p1.ChassisUUID) (portUpd p1 true)
      vteps).filter (fun c => c.UUID == p1.ChassisUUID) = [portUpd p1 true c0] :=
    updateLast_of_filter_single _ _ vteps c0 hflt hpc0
  have hlm2 : lastMatch (fun c : OvnChassis => c.UUID == p1.ChassisUUID)
      (updateLast (fun c : OvnChassis => c.UUID == p1.ChassisUUID) (portUpd p1 true) vteps)
      = some (portUpd p1 true c0) :=
    lastMatch_of_filter_single _ _ _ hflt1
  have hflt2 : (updateLast (fun c : OvnChassis => c.UUID == p1.ChassisUUID) (portUpd p2 false)
      (updateLast (fun c : OvnChassis => c.UUID == p1.ChassisUUID) (portUpd p1 true) vteps)).filter
      (fun c => c.UUID == p1.ChassisUUID) = [portUpd p2 false (portUpd p1 true c0)] :=
    updateLast_of_filter_single _ _ _ _ hflt1 hpc0
  have e1 : portStep (vteps, [], []) p1 =
      (updateLast (fun c : OvnChassis => c.UUID == p1.ChassisUUID) (portUpd p1 true) vteps,
       [p1.LogicalSwitchUUID],
       [{ p1 with Encapsulation := c0.Encaps.Proto, ChassisIPAddress := c0.IPAddress }]) := by
    simp only [portStep, hlm1]
    rfl
  have e2 : portStep
      (updateLast (fun c : OvnChassis => c.UUID == p1.ChassisUUID) (portUpd p1 true) vteps,
       [p1.LogicalSwitchUUID],
       [{ p1 with Encapsulation := c0.Encaps.Proto, ChassisIPAddress := c0.IPAddress }]) p2 =
      (updateLast (fun c : OvnChassis => c.UUID == p1.ChassisUUID) (portUpd p2 false)
        (updateLast (fun c : OvnChassis => c.UUID == p1.ChassisUUID) (portUpd p1 true) vteps),
       [p1.LogicalSwitchUUID],
       [{ p1 with Encapsulation := c0.Encaps.Proto, ChassisIPAddress := c0.IPAddress },
        { p2 with Encapsulation := (portUpd p1 true c0).Encaps.Proto,
                  ChassisIPAddress := (portUpd p1 true c0).IPAddress }]) := by
    simp only [portStep, hsame, hsw, hlm2, List.contains_cons, beq_self_eq_true, Bool.true_or,
      Bool.not_true, if_false, Bool.false_eq_true, ite_false]
    rfl
  have efold : (mapPortToChassis vteps [p1, p2]).1 =
      updateLast (fun c : OvnChassis => c.UUID == p1.ChassisUUID) (portUpd p2 false)
        (updateLast (fun c : OvnChassis => c.UUID == p1.ChassisUUID) (portUpd p1 true) vteps) := by
    rw [mapPortToChassis, List.foldl_cons, e1, List.foldl_cons, e2, List.foldl_nil]
  refine ⟨portUpd p2 false (portUpd p1 true c0), ?_, ?_, ?_, ?_⟩
  · rw [efold]
    exact hflt2
  · show ((portUpd p1 true c0).Switches.count p1.LogicalSwitchUUID = 1)
    show ((c0.Switches ++ [p1.LogicalSwitchUUID]).count p1.LogicalSwitchUUID = 1)
    rw [List.count_append, hfresh]
    simp
  · show p1.UUID ∈ (c0.Ports ++ [p1.UUID]) ++ [p2.UUID]
    exact List.mem_append_left _ (List.mem_append_right _ (List.mem_singleton_self _))
  · show p2.UUID ∈ (c0.Ports ++ [p1.UUID]) ++ [p2.UUID]
    exact List.mem_append_right _ (List.mem_singleton_self _)

theorem claim_C8_witness :
    ∃ c', (mapPortToChassis [chAssoc] [portAssoc1, portAssoc2]).1.filter
        (fun c => c.UUID == portAssoc1.ChassisUUID) = [c'] ∧
      c'.Switches.count portAssoc1.LogicalSwitchUUID = 1 ∧
      portAssoc1.UUID ∈ c'.Ports ∧ portAssoc2.UUID ∈ c'.Ports :=
  claim_C8 [chAssoc] portAssoc1 portAssoc2 chAssoc (by decide) (by decide) (by decide) (by decide)

end Ovsdb
